import Mathlib

/-!
# Verification of the Deliverge parcel-posting core

Shallow embedding of the pricing, distance and validation logic of
`src/frontend/app/sender/post-parcel.tsx`, together with a model of the
OTP Manager described in the design document (the backend implementing it
is not part of the snapshot).  Numbers that the source manipulates as JS
floats are modelled as real numbers; JS `Math.round` is modelled as
round-half-up; `parseFloat` results are modelled as `Option ℝ` with
`none` standing for `NaN` (every JS comparison with `NaN` is false).
-/

open Real

namespace Deliverge

noncomputable section

/-- Timing preference of a delivery (`post-parcel.tsx`, line 42). -/
inductive Timing
  | asap
  | within_2h
  | within_4h
  | scheduled
  deriving DecidableEq

/-- JS `Math.round`: rounds half toward positive infinity. -/
def jsRound (x : ℝ) : ℤ := ⌊x + 1 / 2⌋

/-- JS `Math.atan2 y x` (signed zeros are not modelled; every use in the
source has a nonnegative second argument). -/
def atan2 (y x : ℝ) : ℝ :=
  if 0 < x then arctan (y / x)
  else if x < 0 then
    (if 0 ≤ y then arctan (y / x) + π else arctan (y / x) - π)
  else
    (if 0 < y then π / 2 else if y < 0 then -(π / 2) else 0)

/-- `calculateDistance` (`post-parcel.tsx`, lines 66–80): Haversine formula
with earth radius 6371 km, reading the four coordinate state variables. -/
def calculateDistance (pickupLat pickupLng dropoffLat dropoffLng : ℝ) : ℝ :=
  let R : ℝ := 6371
  let lat1Rad : ℝ := pickupLat * π / 180
  let lat2Rad : ℝ := dropoffLat * π / 180
  let dlat : ℝ := (dropoffLat - pickupLat) * π / 180
  let dlng : ℝ := (dropoffLng - pickupLng) * π / 180
  let a : ℝ := Real.sin (dlat / 2) * Real.sin (dlat / 2) +
    Real.cos lat1Rad * Real.cos lat2Rad * Real.sin (dlng / 2) * Real.sin (dlng / 2)
  let c : ℝ := 2 * atan2 (Real.sqrt a) (Real.sqrt (1 - a))
  R * c

/-- Numeric core of `calculatePrice` (`post-parcel.tsx`, lines 82–108),
taking the already-computed distance and the already-parsed weight. -/
def calculatePriceNum (distance weightNum : ℝ) (timing : Timing) : ℤ :=
  let price0 : ℝ :=
    if distance < 0.5 then 20
    else if distance < 1.0 then 25
    else if distance < 2.0 then 30
    else 25 + 4 * distance
  let price1 : ℝ := if 2 ≤ weightNum ∧ weightNum ≤ 5 then price0 * 1.2 else price0
  let price2 : ℝ := if timing = Timing.asap then price1 * 1.15 else price1
  jsRound price2

/-- Abstraction of a JS text-input state variable: whether the string is
empty, and the result of `parseFloat` on it (`none` models `NaN`; the
empty string always parses to `NaN`). -/
structure TextField where
  isEmpty : Bool
  parsed : Option ℝ

/-- The line `const weightNum = parseFloat(weight) || 0.5`
(`post-parcel.tsx`, line 84): `NaN` and `0` are falsy, every other number
is kept as is. -/
def effectiveWeight (f : TextField) : ℝ :=
  match f.parsed with
  | none => 0.5
  | some x => if x = 0 then 0.5 else x

/-- `calculatePrice` at the level of the component state: distance from the
coordinates, weight from the weight text field. -/
def calculatePrice (pickupLat pickupLng dropoffLat dropoffLng : ℝ)
    (weight : TextField) (timing : Timing) : ℤ :=
  calculatePriceNum (calculateDistance pickupLat pickupLng dropoffLat dropoffLng)
    (effectiveWeight weight) timing

/-- The weight check of `handleNextStep` at step 2 (`post-parcel.tsx`,
line 118): `!weight || parseFloat(weight) <= 0 || parseFloat(weight) > 5`.
A comparison with `NaN` is false in JS, hence the `none` branch. -/
def weightInvalid (f : TextField) : Bool :=
  f.isEmpty ||
    (match f.parsed with
     | none => false
     | some x => if x ≤ 0 then true else if 5 < x then true else false)

/-- The declared-value check of `handleNextStep` at step 2
(`post-parcel.tsx`, line 122): `!declaredValue || parseFloat(declaredValue) <= 0`. -/
def valueInvalid (f : TextField) : Bool :=
  f.isEmpty ||
    (match f.parsed with
     | none => false
     | some x => if x ≤ 0 then true else false)

/-- The whole step-2 validation of `handleNextStep` (`post-parcel.tsx`,
lines 117–130): it alerts and refuses to advance iff one of the three
checks fires; the photo check is `photos.length === 0` (line 126). -/
def step2Invalid (weight declaredValue : TextField) (photos : ℕ) : Bool :=
  weightInvalid weight || valueInvalid declaredValue || photos == 0

end

/-! ## Specification-side definitions used for refinement statements -/

noncomputable section

/-- Base fare by distance tier, written from the spec's pricing pseudocode
(spec §4.2), to be compared with the code's inline tier chain. -/
def specBase (d : ℝ) : ℝ :=
  if d < 0.5 then 20
  else if d < 1.0 then 25
  else if d < 2.0 then 30
  else 25 + 4 * d

/-- Weight multiplier from the spec: 1.2 iff the weight lies in [2, 5]. -/
def specWeightMult (w : ℝ) : ℝ := if 2 ≤ w ∧ w ≤ 5 then 1.2 else 1

/-- Timing multiplier from the spec: 1.15 iff the timing is `asap`. -/
def specTimingMult (t : Timing) : ℝ := if t = Timing.asap then 1.15 else 1

end

/-! ## C1: the price is round(base · m_w · m_t) -/

/-- C1: for every distance, weight and timing, the computed price equals
`round(base(d) * m_w * m_t)` with the tier table, the weight multiplier
1.2 on [2, 5], the timing multiplier 1.15 for `asap`, the multipliers
applied multiplicatively and the rounding done exactly once at the end. -/
theorem claim1_price_formula (d w : ℝ) (t : Timing) :
    calculatePriceNum d w t = jsRound (specBase d * specWeightMult w * specTimingMult t) := by
  unfold calculatePriceNum specBase specWeightMult specTimingMult
  split_ifs <;> simp

/-! ## C4: tier boundaries -/

/-- C4: at the tier boundaries (with neutral weight 0.5 kg and timing
`within_2h`), distance exactly 0.5 km prices at the 25 tier, exactly
1.0 km at the 30 tier, and exactly 2.0 km at the formula tier
25 + 4·2 = 33, not the 30 flat fee. -/
theorem claim4_tier_boundaries :
    calculatePriceNum 0.5 0.5 Timing.within_2h = 25 ∧
    calculatePriceNum 1.0 0.5 Timing.within_2h = 30 ∧
    calculatePriceNum 2.0 0.5 Timing.within_2h = 33 := by
  have ht : Timing.within_2h ≠ Timing.asap := by decide
  refine ⟨?_, ?_, ?_⟩ <;>
    · unfold calculatePriceNum jsRound
      norm_num [Int.floor_eq_iff, if_neg ht]

/-! ## C5: lower bound and determinism of the price -/

/-- C5: the computed price is always at least 20, and the price is a
deterministic pure function of distance, weight and timing: evaluations
on equal inputs return equal outputs. -/
theorem claim5_price_min_and_deterministic (d w : ℝ) (t : Timing) :
    20 ≤ calculatePriceNum d w t ∧
    ∀ (d' w' : ℝ) (t' : Timing), d' = d → w' = w → t' = t →
      calculatePriceNum d' w' t' = calculatePriceNum d w t := by
  refine ⟨?_, ?_⟩
  · unfold calculatePriceNum jsRound
    rw [Int.le_floor]
    push_cast
    split_ifs <;> nlinarith
  · rintro d' w' t' rfl rfl rfl
    rfl

/-- Witness for C5 at distance 3 km, weight 1 kg, timing `asap`. -/
theorem claim5_witness :
    20 ≤ calculatePriceNum 3 1 Timing.asap ∧
    calculatePriceNum 3 1 Timing.asap = calculatePriceNum 3 1 Timing.asap := by
  refine ⟨(claim5_price_min_and_deterministic 3 1 Timing.asap).1, ?_⟩
  exact (claim5_price_min_and_deterministic 3 1 Timing.asap).2 3 1 Timing.asap rfl rfl rfl

/-! ## C10: symmetry of the distance in its endpoints -/

/-- C10: swapping pickup and dropoff leaves the Haversine distance
unchanged, and therefore also the computed price for any weight field and
timing. -/
theorem claim10_distance_symmetric (aLat aLng bLat bLng : ℝ) :
    calculateDistance aLat aLng bLat bLng = calculateDistance bLat bLng aLat aLng ∧
    ∀ (w : TextField) (t : Timing),
      calculatePrice aLat aLng bLat bLng w t = calculatePrice bLat bLng aLat aLng w t := by
  have ha : ∀ u₁ v₁ u₂ v₂ : ℝ,
      Real.sin ((u₂ - u₁) * π / 180 / 2) * Real.sin ((u₂ - u₁) * π / 180 / 2) +
        Real.cos (u₁ * π / 180) * Real.cos (u₂ * π / 180) *
          Real.sin ((v₂ - v₁) * π / 180 / 2) * Real.sin ((v₂ - v₁) * π / 180 / 2) =
      Real.sin ((u₁ - u₂) * π / 180 / 2) * Real.sin ((u₁ - u₂) * π / 180 / 2) +
        Real.cos (u₂ * π / 180) * Real.cos (u₁ * π / 180) *
          Real.sin ((v₁ - v₂) * π / 180 / 2) * Real.sin ((v₁ - v₂) * π / 180 / 2) := by
    intro u₁ v₁ u₂ v₂
    have e1 : (u₂ - u₁) * π / 180 / 2 = -((u₁ - u₂) * π / 180 / 2) := by ring
    have e2 : (v₂ - v₁) * π / 180 / 2 = -((v₁ - v₂) * π / 180 / 2) := by ring
    rw [e1, e2, Real.sin_neg, Real.sin_neg]
    ring
  have hd : calculateDistance aLat aLng bLat bLng = calculateDistance bLat bLng aLat aLng := by
    simp only [calculateDistance]
    rw [ha aLat aLng bLat bLng]
  exact ⟨hd, fun w t => by simp only [calculatePrice, hd]⟩

/-! ## Wizard state machine of the posting screen -/

noncomputable section

/-- State of the `PostParcelScreen` component that the posting logic reads
(`post-parcel.tsx`, lines 24–45).  Addresses are abstracted to whether
their trimmed text is empty. -/
structure WizardState where
  step : ℕ
  pickupEmpty : Bool
  dropoffEmpty : Bool
  pickupLat : ℝ
  pickupLng : ℝ
  dropoffLat : ℝ
  dropoffLng : ℝ
  weight : TextField
  declaredValue : TextField
  photos : ℕ
  timing : Timing
  calculatedPrice : ℤ

/-- `handleNextStep` (`post-parcel.tsx`, lines 110–136): step 1 requires
both addresses, step 2 runs the parcel validation, step 3 computes and
stores the price.  A failing validation alerts and returns early, leaving
the state unchanged. -/
def handleNextStep (s : WizardState) : WizardState :=
  if s.step = 1 then
    if s.pickupEmpty || s.dropoffEmpty then s else { s with step := 2 }
  else if s.step = 2 then
    if step2Invalid s.weight s.declaredValue s.photos then s else { s with step := 3 }
  else if s.step = 3 then
    { s with step := 4,
             calculatedPrice :=
               calculatePrice s.pickupLat s.pickupLng s.dropoffLat s.dropoffLng
                 s.weight s.timing }
  else s

/-- User interactions the screen offers.  `addPhoto` is only available
while fewer than 3 photos are present (the add button is rendered only
when `photos.length < 3`, `post-parcel.tsx`, line 255); `removePhoto`
filters one photo out (line 249); `back` is rendered only for `step > 1`
(line 398).  The step-4 Confirm & Post action posts the delivery and is
not part of this wizard relation. -/
inductive UiEvent
  | next
  | back
  | addPhoto
  | removePhoto
  | setPickup (isEmpty : Bool)
  | setDropoff (isEmpty : Bool)
  | setWeight (f : TextField)
  | setDeclaredValue (f : TextField)
  | setTiming (t : Timing)

/-- Effect of one interaction on the component state. -/
def uiStep (s : WizardState) : UiEvent → WizardState
  | UiEvent.next => handleNextStep s
  | UiEvent.back => if 1 < s.step then { s with step := s.step - 1 } else s
  | UiEvent.addPhoto => if s.photos < 3 then { s with photos := s.photos + 1 } else s
  | UiEvent.removePhoto => { s with photos := s.photos - 1 }
  | UiEvent.setPickup b => { s with pickupEmpty := b }
  | UiEvent.setDropoff b => { s with dropoffEmpty := b }
  | UiEvent.setWeight f => { s with weight := f }
  | UiEvent.setDeclaredValue f => { s with declaredValue := f }
  | UiEvent.setTiming t => { s with timing := t }

/-- Initial component state (`post-parcel.tsx`, lines 24–45): step 1,
empty text fields, default Panaji/Margao coordinates, no photos, timing
`asap`, price 0. -/
def initState : WizardState :=
  { step := 1, pickupEmpty := true, dropoffEmpty := true,
    pickupLat := 15.4909, pickupLng := 73.8278,
    dropoffLat := 15.2832, dropoffLng := 73.9685,
    weight := ⟨true, none⟩, declaredValue := ⟨true, none⟩,
    photos := 0, timing := Timing.asap, calculatedPrice := 0 }

/-- States the screen can actually be in. -/
inductive Reachable : WizardState → Prop
  | init : Reachable initState
  | step {s : WizardState} (e : UiEvent) : Reachable s → Reachable (uiStep s e)

end

/-- The screen never holds more than 3 photos: the add button disappears
at 3 and every other interaction only removes photos or leaves them
alone. -/
theorem reachable_photos_le_three {s : WizardState} (h : Reachable s) : s.photos ≤ 3 := by
  induction h with
  | init => simp [initState]
  | step e _ ih =>
    rename_i s'
    cases e <;> simp only [uiStep, handleNextStep] <;>
      first
        | omega
        | assumption
        | (split_ifs <;> simp_all <;> omega)

/-! ## C3: the step-2 validation -/

/-- Failure condition exactly as claim C3 words it: the submitted weight
is outside (0, 5], or the declared value is not strictly positive, or the
number of condition photos is not between 1 and 3. -/
def claimedStep2Invalid (weight declaredValue : TextField) (photos : ℕ) : Prop :=
  (¬ ∃ x, weight.parsed = some x ∧ 0 < x ∧ x ≤ 5) ∨
  (¬ ∃ x, declaredValue.parsed = some x ∧ 0 < x) ∨
  ¬ (1 ≤ photos ∧ photos ≤ 3)

/-- The weight check fires iff the field is empty or parses to a number
outside (0, 5]; a `NaN` parse passes both JS comparisons. -/
theorem weightInvalid_iff (f : TextField) :
    weightInvalid f = true ↔
      f.isEmpty = true ∨ ∃ x, f.parsed = some x ∧ (x ≤ 0 ∨ 5 < x) := by
  unfold weightInvalid
  cases hp : f.parsed with
  | none => simp [hp]
  | some x =>
    simp only [hp, Bool.or_eq_true, Option.some.injEq]
    split_ifs with h1 h2 <;> simp_all

/-- The declared-value check fires iff the field is empty or parses to a
nonpositive number. -/
theorem valueInvalid_iff (f : TextField) :
    valueInvalid f = true ↔
      f.isEmpty = true ∨ ∃ x, f.parsed = some x ∧ x ≤ 0 := by
  unfold valueInvalid
  cases hp : f.parsed with
  | none => simp [hp]
  | some x =>
    simp only [hp, Bool.or_eq_true, Option.some.injEq]
    split_ifs with h1 <;> simp_all

/-- Counterexample to C3 as stated: a weight string such as "." is
nonempty but parses to `NaN`; it is certainly not a number in (0, 5], so
the claim demands a `ValidationError`, yet both JS comparisons with `NaN`
are false and the validation passes. -/
theorem claim3_counterexample :
    claimedStep2Invalid ⟨false, none⟩ ⟨false, some 100⟩ 2 ∧
    step2Invalid ⟨false, none⟩ ⟨false, some 100⟩ 2 = false := by
  constructor
  · left
    rintro ⟨x, hx, -⟩
    exact Option.noConfusion hx
  · norm_num [step2Invalid, weightInvalid, valueInvalid]

/-- C3 as amended: on every reachable step-2 state, the validation fails
iff the weight field is empty or parses to a number outside (0, 5] (a
nonempty unparsable weight slips through), or the declared-value field is
empty or parses to a nonpositive number, or the photo count is not
between 1 and 3 (equivalently, is zero, since the screen caps photos at
3); and a failing validation leaves the state unchanged, so no delivery
is created by that attempt. -/
theorem claim3_amended {s : WizardState} (hs : Reachable s) (h2 : s.step = 2) :
    (step2Invalid s.weight s.declaredValue s.photos = true ↔
      (s.weight.isEmpty = true ∨ (∃ x, s.weight.parsed = some x ∧ (x ≤ 0 ∨ 5 < x)) ∨
       s.declaredValue.isEmpty = true ∨ (∃ x, s.declaredValue.parsed = some x ∧ x ≤ 0) ∨
       ¬ (1 ≤ s.photos ∧ s.photos ≤ 3))) ∧
    (step2Invalid s.weight s.declaredValue s.photos = true → handleNextStep s = s) := by
  have hp := reachable_photos_le_three hs
  constructor
  · unfold step2Invalid
    have hph : s.photos = 0 ↔ ¬ (1 ≤ s.photos ∧ s.photos ≤ 3) := by omega
    simp only [Bool.or_eq_true, weightInvalid_iff, valueInvalid_iff, beq_iff_eq, hph,
      or_assoc]
  · intro hinv
    unfold handleNextStep
    rw [if_neg (by omega), if_pos h2, if_pos hinv]

/-- A concrete reachable state for the C3 witness: both addresses filled
in, Next pressed once, weight and value fields still empty. -/
noncomputable def c3State : WizardState :=
  uiStep (uiStep (uiStep initState (UiEvent.setPickup false)) (UiEvent.setDropoff false))
    UiEvent.next

/-- Witness for C3 (amended): on the concrete reachable step-2 state with
empty weight field the validation fails and the failing Next press leaves
the state unchanged. -/
theorem claim3_witness :
    step2Invalid c3State.weight c3State.declaredValue c3State.photos = true ∧
    handleNextStep c3State = c3State := by
  have hr : Reachable c3State :=
    Reachable.step UiEvent.next
      (Reachable.step (UiEvent.setDropoff false)
        (Reachable.step (UiEvent.setPickup false) Reachable.init))
  have h2 : c3State.step = 2 := by
    simp [c3State, uiStep, handleNextStep, initState]
  have hinv : step2Invalid c3State.weight c3State.declaredValue c3State.photos = true := by
    simp [c3State, uiStep, handleNextStep, initState, step2Invalid, weightInvalid]
  exact ⟨hinv, (claim3_amended hr h2).2 hinv⟩

/-! ## C7: the 0.1 kg lower bound is not enforced -/

/-- C7: the claim — and the alert text in the code itself, "Weight must
be between 0.1 and 5 kg" (`post-parcel.tsx`, line 119) — requires that no
weight below 0.1 kg pass the validation, but the actual check is
`parseFloat(weight) <= 0`, so a 0.05 kg parcel passes. -/
theorem claim7_weight_below_minimum_accepted :
    step2Invalid ⟨false, some 0.05⟩ ⟨false, some 500⟩ 2 = false ∧
    (0.05 : ℝ) < 0.1 ∧ (0 : ℝ) < 0.05 := by
  refine ⟨?_, by norm_num, by norm_num⟩
  norm_num [step2Invalid, weightInvalid, valueInvalid]

/-! ## C9: fallback weight in the price calculation -/

/-- Counterexample to C9 as stated: a weight field reading "-2" is not
empty and does not parse to a positive number, and the claim says it is
treated as 0.5 kg; but only falsy parses (`NaN` and 0) trigger the
`|| 0.5` fallback, so the weight used is -2, not 0.5. -/
theorem claim9_counterexample :
    (⟨false, some (-2)⟩ : TextField).parsed = some (-2) ∧ (-2 : ℝ) ≤ 0 ∧
    effectiveWeight ⟨false, some (-2)⟩ = -2 ∧
    effectiveWeight ⟨false, some (-2)⟩ ≠ 0.5 := by
  norm_num [effectiveWeight]

/-- Price does not depend on the weight as long as the weight multiplier
does not fire. -/
theorem priceNum_weight_congr (d : ℝ) (t : Timing) {w w' : ℝ}
    (h : ¬ (2 ≤ w ∧ w ≤ 5)) (h' : ¬ (2 ≤ w' ∧ w' ≤ 5)) :
    calculatePriceNum d w t = calculatePriceNum d w' t := by
  unfold calculatePriceNum
  simp only [if_neg h, if_neg h']

/-- C9 as amended: an empty, unparsable or zero weight field is treated
as 0.5 kg; a field parsing to a negative number keeps its negative value;
in every case in which the weight does not parse to a positive number,
the weight multiplier is not applied and the price equals that of a
0.5 kg parcel at the same distance and timing. -/
theorem claim9_amended (f : TextField) (d : ℝ) (t : Timing) :
    (f.parsed = none ∨ f.parsed = some 0 → effectiveWeight f = 0.5) ∧
    ((f.parsed = none ∨ ∃ x, f.parsed = some x ∧ x ≤ 0) →
      ¬ (2 ≤ effectiveWeight f ∧ effectiveWeight f ≤ 5) ∧
      calculatePriceNum d (effectiveWeight f) t = calculatePriceNum d 0.5 t) := by
  constructor
  · rintro (h | h) <;> simp [effectiveWeight, h]
  · intro h
    have hw : effectiveWeight f = 0.5 ∨ ∃ x, effectiveWeight f = x ∧ x < 0 := by
      rcases h with h | ⟨x, hx, hx0⟩
      · exact Or.inl (by simp [effectiveWeight, h])
      · rcases eq_or_lt_of_le hx0 with h0 | h0
        · exact Or.inl (by simp [effectiveWeight, hx, h0])
        · exact Or.inr ⟨x, by simp [effectiveWeight, hx, ne_of_lt h0], h0⟩
    have hmult : ¬ (2 ≤ effectiveWeight f ∧ effectiveWeight f ≤ 5) := by
      rcases hw with h5 | ⟨x, hx, hx0⟩
      · rw [h5]; norm_num
      · rw [hx]; rintro ⟨h2, -⟩; linarith
    exact ⟨hmult, priceNum_weight_congr d t hmult (by norm_num)⟩

/-- Witness for C9 (amended) at the weight string "-1", distance 3 km,
timing `within_2h`. -/
theorem claim9_witness :
    ¬ (2 ≤ effectiveWeight ⟨false, some (-1)⟩ ∧ effectiveWeight ⟨false, some (-1)⟩ ≤ 5) ∧
    calculatePriceNum 3 (effectiveWeight ⟨false, some (-1)⟩) Timing.within_2h =
      calculatePriceNum 3 0.5 Timing.within_2h :=
  (claim9_amended ⟨false, some (-1)⟩ 3 Timing.within_2h).2
    (Or.inr ⟨-1, rfl, by norm_num⟩)

/-! ## C8: OTP single use (spec-modelled, the backend is not in the
snapshot) -/

/-- Error taxonomy of the OTP Manager's verify operation (spec §4.3). -/
inductive OtpError
  | expired
  | alreadyUsed
  | mismatch
  deriving DecidableEq

/-- Persisted OTP state: salted hash, expiry timestamp, failed-attempt
counter, used flag (spec §3 and §4.3). -/
structure OtpRecord where
  storedHash : ℕ
  expiry : ℕ
  attempts : ℕ
  used : Bool
  deriving DecidableEq

/-- Modelled from the spec: the OTP Manager's `verify` (spec §4.3) lives
in the backend, which is absent from the repository snapshot.  Following
the spec's order of checks: fail with `Expired` if now is past the
expiry; else with `AlreadyUsed` if the used flag is set; else with
`Mismatch` (incrementing the attempt counter) if the hash of the
submitted code differs from the stored hash; on a match succeed, the used
flag being set as the spec directs the caller to do. -/
def otpVerify (hash : ℕ → ℕ) (st : OtpRecord) (submitted now : ℕ) :
    Except OtpError Unit × OtpRecord :=
  if st.expiry < now then (Except.error OtpError.expired, st)
  else if st.used then (Except.error OtpError.alreadyUsed, st)
  else if hash submitted ≠ st.storedHash then
    (Except.error OtpError.mismatch, { st with attempts := st.attempts + 1 })
  else (Except.ok (), { st with used := true })

/-- Counterexample to C8 as stated: a successful verification followed by
a replay of the same code after the expiry fails with `Expired`, not
`AlreadyUsed` — the expiry check precedes the used-flag check. -/
theorem claim8_counterexample :
    (otpVerify id ⟨7, 10, 0, false⟩ 7 5).1 = Except.ok () ∧
    (otpVerify id (otpVerify id ⟨7, 10, 0, false⟩ 7 5).2 7 20).1 =
      Except.error OtpError.expired ∧
    (Except.error OtpError.expired : Except OtpError Unit) ≠
      Except.error OtpError.alreadyUsed := by
  refine ⟨rfl, rfl, ?_⟩
  intro h
  exact OtpError.noConfusion (Except.error.inj h)

/-- C8 as amended: after a successful verification no attempt on that OTP
ever succeeds again; a replay at or before the expiry fails with
`AlreadyUsed`, while a replay after the expiry fails with `Expired`. -/
theorem claim8_amended (hash : ℕ → ℕ) (st : OtpRecord) (code now : ℕ)
    (hok : (otpVerify hash st code now).1 = Except.ok ()) :
    (∀ now', now' ≤ (otpVerify hash st code now).2.expiry →
      (otpVerify hash (otpVerify hash st code now).2 code now').1 =
        Except.error OtpError.alreadyUsed) ∧
    ∀ (code' now' : ℕ),
      (otpVerify hash (otpVerify hash st code now).2 code' now').1 ≠ Except.ok () := by
  have hst : (otpVerify hash st code now).2 = { st with used := true } := by
    unfold otpVerify at hok ⊢
    split_ifs at hok ⊢
    all_goals simp_all
  rw [hst]
  constructor
  · intro now' hle
    unfold otpVerify
    rw [if_neg (by simpa using not_lt.mpr hle)]
    simp
  · intro code' now'
    unfold otpVerify
    split_ifs <;> simp_all

/-- Witness for C8 (amended): concrete record with expiry 10, success at
time 5, replay of the same code at time 6. -/
theorem claim8_witness :
    (otpVerify id (otpVerify id ⟨7, 10, 0, false⟩ 7 5).2 7 6).1 =
      Except.error OtpError.alreadyUsed ∧
    (otpVerify id (otpVerify id ⟨7, 10, 0, false⟩ 7 5).2 7 6).1 ≠ Except.ok () := by
  have h := claim8_amended id ⟨7, 10, 0, false⟩ 7 5 rfl
  exact ⟨h.1 6 (by norm_num [otpVerify]), h.2 7 6⟩

/-! ## C6: range validation of the distance computation -/

/-- Error taxonomy of the spec's Geo-Distance Calculator (§4.4). -/
inductive GeoError
  | invalidCoordinate
  deriving DecidableEq

noncomputable section

/-- Haversine great-circle distance as the spec describes it (§4.4):
earth radius 6371 km, classic arcsine form. -/
def haversineSpec (pickupLat pickupLng dropoffLat dropoffLng : ℝ) : ℝ :=
  let phi1 : ℝ := pickupLat * π / 180
  let phi2 : ℝ := dropoffLat * π / 180
  let dphi : ℝ := (dropoffLat - pickupLat) * π / 180
  let dlam : ℝ := (dropoffLng - pickupLng) * π / 180
  2 * 6371 *
    Real.arcsin (Real.sqrt (Real.sin (dphi / 2) ^ 2 +
      Real.cos phi1 * Real.cos phi2 * Real.sin (dlam / 2) ^ 2))

/-- Modelled from the spec: the checked distance computation of §4.4 —
validate latitude ∈ [-90, 90] and longitude ∈ [-180, 180] on both
endpoints, fail with `InvalidCoordinate` otherwise, else return the
Haversine distance. -/
def calculateDistanceChecked (pickupLat pickupLng dropoffLat dropoffLng : ℝ) :
    Except GeoError ℝ :=
  if -90 ≤ pickupLat ∧ pickupLat ≤ 90 ∧ -90 ≤ dropoffLat ∧ dropoffLat ≤ 90 ∧
      -180 ≤ pickupLng ∧ pickupLng ≤ 180 ∧ -180 ≤ dropoffLng ∧ dropoffLng ≤ 180 then
    Except.ok (haversineSpec pickupLat pickupLng dropoffLat dropoffLng)
  else Except.error GeoError.invalidCoordinate

end

/-- For nonnegative arguments the sine is at most its argument. -/
theorem sin_le_self_of_nonneg {x : ℝ} (hx : 0 ≤ x) : Real.sin x ≤ x := by
  rcases eq_or_lt_of_le hx with h | h
  · rw [← h]
    simp
  · exact le_of_lt (Real.sin_lt h)

/-- For nonnegative arguments the arctangent is at most its argument. -/
theorem arctan_le_self_of_nonneg {x : ℝ} (hx : 0 ≤ x) : arctan x ≤ x := by
  rcases eq_or_lt_of_le hx with h | h
  · rw [← h]
    simp
  · have h0 : 0 < arctan x := by
      have := Real.arctan_strictMono h
      simpa using this
    have := Real.lt_tan h0 (Real.arctan_lt_pi_div_two x)
    rw [Real.tan_arctan] at this
    exact le_of_lt this

/-- Counterexample to C6 as stated: latitude 100 is out of range, the
spec's checked computation rejects it with `InvalidCoordinate`, yet the
code's `calculateDistance` performs no validation and happily returns a
distance (here 0, both endpoints being the same out-of-range point). -/
theorem claim6_counterexample :
    calculateDistanceChecked 100 0 100 0 = Except.error GeoError.invalidCoordinate ∧
    calculateDistance 100 0 100 0 = 0 := by
  constructor
  · unfold calculateDistanceChecked
    rw [if_neg]
    norm_num
  · simp only [calculateDistance, atan2]
    norm_num [Real.arctan_zero]

/-- For an argument in [0, 1], the code's `atan2`-of-square-roots form of
the half-angle inversion equals the arcsine. -/
theorem atan2_sqrt_eq_arcsin {A : ℝ} (h0 : 0 ≤ A) (h1 : A ≤ 1) :
    atan2 (Real.sqrt A) (Real.sqrt (1 - A)) = Real.arcsin (Real.sqrt A) := by
  rcases lt_or_eq_of_le h1 with hlt | heq
  · have hpos : 0 < Real.sqrt (1 - A) := by
      rw [Real.sqrt_pos]
      linarith
    unfold atan2
    rw [if_pos hpos]
    have hmem : Real.sqrt A ∈ Set.Ioo (-1 : ℝ) 1 := by
      constructor
      · have := Real.sqrt_nonneg A
        linarith
      · refine (Real.sqrt_lt' one_pos).mpr ?_
        norm_num
        exact hlt
    rw [Real.arcsin_eq_arctan hmem, Real.sq_sqrt h0]
  · subst heq
    norm_num [atan2, Real.sqrt_one, Real.arcsin_one]

/-- The Haversine sum of squares never exceeds 1 when both cosines are
nonnegative. -/
theorem haversine_sum_le_one (x y v : ℝ) (hcx : 0 ≤ Real.cos x) (hcy : 0 ≤ Real.cos y) :
    Real.sin ((y - x) / 2) * Real.sin ((y - x) / 2) +
      Real.cos x * Real.cos y * Real.sin v * Real.sin v ≤ 1 := by
  have hs2 : Real.sin ((y - x) / 2) * Real.sin ((y - x) / 2) =
      (1 - Real.cos (y - x)) / 2 := by
    have hd := Real.cos_two_mul ((y - x) / 2)
    have hp := Real.sin_sq_add_cos_sq ((y - x) / 2)
    have h2t : 2 * ((y - x) / 2) = y - x := by ring
    rw [h2t] at hd
    nlinarith [hd, hp]
  have hcc : Real.cos x * Real.cos y = (Real.cos (x - y) + Real.cos (x + y)) / 2 := by
    have hadd := Real.cos_add x y
    have hsub := Real.cos_sub x y
    linarith
  have hflip : Real.cos (y - x) = Real.cos (x - y) := by
    rw [← Real.cos_neg (x - y)]
    ring_nf
  have hv : Real.sin v * Real.sin v ≤ 1 := by
    nlinarith [Real.sin_sq_le_one v]
  have hbound : Real.cos x * Real.cos y * (Real.sin v * Real.sin v) ≤
      Real.cos x * Real.cos y :=
    mul_le_of_le_one_right (mul_nonneg hcx hcy) hv
  have hcos1 : Real.cos (x + y) ≤ 1 := Real.cos_le_one _
  nlinarith [hbound]

/-- On in-range inputs the code's arctangent form of the Haversine
distance agrees with the spec's arcsine form. -/
theorem haversine_agrees (pLat pLng dLat dLng : ℝ)
    (h1 : -90 ≤ pLat) (h2 : pLat ≤ 90) (h3 : -90 ≤ dLat) (h4 : dLat ≤ 90) :
    calculateDistance pLat pLng dLat dLng = haversineSpec pLat pLng dLat dLng := by
  have hpi : (0 : ℝ) < π := Real.pi_pos
  have hc1 : 0 ≤ Real.cos (pLat * π / 180) := by
    apply Real.cos_nonneg_of_mem_Icc
    rw [Set.mem_Icc]
    constructor <;> nlinarith
  have hc2 : 0 ≤ Real.cos (dLat * π / 180) := by
    apply Real.cos_nonneg_of_mem_Icc
    rw [Set.mem_Icc]
    constructor <;> nlinarith
  have ha0 : 0 ≤ Real.sin ((dLat - pLat) * π / 180 / 2) * Real.sin ((dLat - pLat) * π / 180 / 2) +
      Real.cos (pLat * π / 180) * Real.cos (dLat * π / 180) *
        Real.sin ((dLng - pLng) * π / 180 / 2) * Real.sin ((dLng - pLng) * π / 180 / 2) := by
    have hprod := mul_nonneg (mul_nonneg hc1 hc2)
      (mul_self_nonneg (Real.sin ((dLng - pLng) * π / 180 / 2)))
    nlinarith [mul_self_nonneg (Real.sin ((dLat - pLat) * π / 180 / 2))]
  have ha1 : Real.sin ((dLat - pLat) * π / 180 / 2) * Real.sin ((dLat - pLat) * π / 180 / 2) +
      Real.cos (pLat * π / 180) * Real.cos (dLat * π / 180) *
        Real.sin ((dLng - pLng) * π / 180 / 2) * Real.sin ((dLng - pLng) * π / 180 / 2) ≤ 1 := by
    have hkey := haversine_sum_le_one (pLat * π / 180) (dLat * π / 180)
      ((dLng - pLng) * π / 180 / 2) hc1 hc2
    rw [show (dLat * π / 180 - pLat * π / 180) / 2 = (dLat - pLat) * π / 180 / 2 by ring] at hkey
    nlinarith [hkey]
  simp only [calculateDistance, haversineSpec]
  rw [atan2_sqrt_eq_arcsin ha0 ha1]
  rw [show Real.sin ((dLat - pLat) * π / 180 / 2) * Real.sin ((dLat - pLat) * π / 180 / 2) +
      Real.cos (pLat * π / 180) * Real.cos (dLat * π / 180) *
        Real.sin ((dLng - pLng) * π / 180 / 2) * Real.sin ((dLng - pLng) * π / 180 / 2) =
      Real.sin ((dLat - pLat) * π / 180 / 2) ^ 2 +
        Real.cos (pLat * π / 180) * Real.cos (dLat * π / 180) *
          Real.sin ((dLng - pLng) * π / 180 / 2) ^ 2 by ring]
  ring

/-- C6 as amended: the code performs no input validation — the spec's
checked computation (which rejects out-of-range coordinates with
`InvalidCoordinate`) agrees with the code exactly on in-range inputs,
where the code does compute the Haversine distance with earth radius
6371 km; out-of-range inputs are not rejected by the code (see the
counterexample). -/
theorem claim6_amended (pLat pLng dLat dLng : ℝ)
    (h : -90 ≤ pLat ∧ pLat ≤ 90 ∧ -90 ≤ dLat ∧ dLat ≤ 90 ∧
        -180 ≤ pLng ∧ pLng ≤ 180 ∧ -180 ≤ dLng ∧ dLng ≤ 180) :
    calculateDistanceChecked pLat pLng dLat dLng =
      Except.ok (calculateDistance pLat pLng dLat dLng) := by
  unfold calculateDistanceChecked
  rw [if_pos h, haversine_agrees pLat pLng dLat dLng h.1 h.2.1 h.2.2.1 h.2.2.2.1]

/-- Witness for C6 (amended) at the origin coordinates. -/
theorem claim6_witness :
    calculateDistanceChecked 0 0 0 0 = Except.ok (calculateDistance 0 0 0 0) :=
  claim6_amended 0 0 0 0 (by norm_num)

/-! ## C2: the worked Panaji → Margao example

The default coordinates of the screen are pickup (15.4909, 73.8278) and
dropoff (15.2832, 73.9685).  The spec's worked example asserts a distance
of about 33 km and a price of 157; the bounds below pin the actual
Haversine distance to (27.5, 27.6) km, so the price is 135. -/

noncomputable section

/-- Distance the screen computes for its default Panaji → Margao
coordinates (the worked example's input). -/
def exampleDistance : ℝ := calculateDistance 15.4909 73.8278 15.2832 73.9685

/-- Price the screen computes for the worked example: weight field "0.5",
timing `within_2h`. -/
def examplePrice : ℤ :=
  calculatePrice 15.4909 73.8278 15.2832 73.9685 ⟨false, some 0.5⟩ Timing.within_2h

/-- The Haversine radicand arising from the worked example's
coordinates. -/
def exampleA : ℝ :=
  Real.sin ((15.2832 - 15.4909) * π / 180 / 2) * Real.sin ((15.2832 - 15.4909) * π / 180 / 2) +
    Real.cos (15.4909 * π / 180) * Real.cos (15.2832 * π / 180) *
      Real.sin ((73.9685 - 73.8278) * π / 180 / 2) *
      Real.sin ((73.9685 - 73.8278) * π / 180 / 2)

end

/-- The example distance in terms of the radicand. -/
theorem exampleDistance_def :
    exampleDistance =
      6371 * (2 * atan2 (Real.sqrt exampleA) (Real.sqrt (1 - exampleA))) := by
  simp only [exampleDistance, calculateDistance, exampleA]

/-- A quadratic lower bound on the arctangent of a nonnegative number. -/
theorem arctan_ge_sub {x : ℝ} (hx : 0 ≤ x) : x * (1 - x ^ 2 / 2) ≤ arctan x := by
  have h0 : 0 ≤ arctan x := by
    have h := Real.arctan_strictMono.monotone hx
    simpa [Real.arctan_zero] using h
  rcases le_or_lt (1 - x ^ 2 / 2) 0 with hneg | hposq
  · have : x * (1 - x ^ 2 / 2) ≤ 0 := mul_nonpos_of_nonneg_of_nonpos hx hneg
    linarith
  · have hr2 : Real.sqrt (1 + x ^ 2) ^ 2 = 1 + x ^ 2 := Real.sq_sqrt (by positivity)
    have hrpos : 0 < Real.sqrt (1 + x ^ 2) := Real.sqrt_pos.mpr (by positivity)
    have hx2 : x ^ 2 < 2 := by nlinarith
    have hx4 : 0 ≤ x ^ 2 * x ^ 2 * (3 - x ^ 2) :=
      mul_nonneg (mul_nonneg (sq_nonneg x) (sq_nonneg x)) (by nlinarith)
    have hA2 : ((1 - x ^ 2 / 2) * Real.sqrt (1 + x ^ 2)) ^ 2 =
        (1 - x ^ 2 / 2) ^ 2 * (1 + x ^ 2) := by
      rw [mul_pow, hr2]
    have hA1 : (1 - x ^ 2 / 2) * Real.sqrt (1 + x ^ 2) ≤ 1 := by
      nlinarith [sq_nonneg ((1 - x ^ 2 / 2) * Real.sqrt (1 + x ^ 2) - 1)]
    have hsin := Real.sin_arctan x
    have hle : x * (1 - x ^ 2 / 2) ≤ x / Real.sqrt (1 + x ^ 2) := by
      rw [le_div_iff₀ hrpos]
      nlinarith [hA1]
    have hfin : Real.sin (arctan x) ≤ arctan x := sin_le_self_of_nonneg h0
    rw [hsin] at hfin
    linarith

/-- Interval bounds on half the latitude difference of the example, in
radians. -/
theorem ex_t1_bounds : (0.00181252 : ℝ) < 0.2077 * π / 360 ∧
    (0.2077 : ℝ) * π / 360 < 0.00181253 := by
  constructor <;> nlinarith [Real.pi_gt_d6, Real.pi_lt_d6]

/-- Interval bounds on half the longitude difference of the example. -/
theorem ex_t2_bounds : (0.00122783 : ℝ) < 0.1407 * π / 360 ∧
    (0.1407 : ℝ) * π / 360 < 0.00122784 := by
  constructor <;> nlinarith [Real.pi_gt_d6, Real.pi_lt_d6]

/-- Interval bounds on the pickup latitude of the example, in radians. -/
theorem ex_y1_bounds : (0.2703671 : ℝ) < 15.4909 * π / 180 ∧
    (15.4909 : ℝ) * π / 180 < 0.2703673 := by
  constructor <;> nlinarith [Real.pi_gt_d6, Real.pi_lt_d6]

/-- Interval bounds on the dropoff latitude of the example, in radians. -/
theorem ex_y2_bounds : (0.2667421 : ℝ) < 15.2832 * π / 180 ∧
    (15.2832 : ℝ) * π / 180 < 0.2667422 := by
  constructor <;> nlinarith [Real.pi_gt_d6, Real.pi_lt_d6]

/-- Bounds on the sine of half the latitude difference. -/
theorem ex_sin_t1_bounds : (0.00181251 : ℝ) < Real.sin (0.2077 * π / 360) ∧
    Real.sin (0.2077 * π / 360) < 0.00181253 := by
  obtain ⟨hlo, hhi⟩ := ex_t1_bounds
  constructor
  · have h := @Real.sin_gt_sub_cube (0.2077 * π / 360) (by linarith) (by linarith)
    have hcube : (0.2077 * π / 360) ^ 3 ≤ (0.00181253 : ℝ) ^ 3 :=
      pow_le_pow_left₀ (by linarith) (le_of_lt hhi) 3
    nlinarith [h, hcube]
  · have h := Real.sin_lt (show (0 : ℝ) < 0.2077 * π / 360 by linarith)
    linarith

/-- Bounds on the sine of half the longitude difference. -/
theorem ex_sin_t2_bounds : (0.00122782 : ℝ) < Real.sin (0.1407 * π / 360) ∧
    Real.sin (0.1407 * π / 360) < 0.00122784 := by
  obtain ⟨hlo, hhi⟩ := ex_t2_bounds
  constructor
  · have h := @Real.sin_gt_sub_cube (0.1407 * π / 360) (by linarith) (by linarith)
    have hcube : (0.1407 * π / 360) ^ 3 ≤ (0.00122784 : ℝ) ^ 3 :=
      pow_le_pow_left₀ (by linarith) (le_of_lt hhi) 3
    nlinarith [h, hcube]
  · have h := Real.sin_lt (show (0 : ℝ) < 0.1407 * π / 360 by linarith)
    linarith

/-- Bounds on the cosine of the pickup latitude, via the quartic Taylor
bound. -/
theorem ex_cos_y1_bounds : (0.963172 : ℝ) < Real.cos (15.4909 * π / 180) ∧
    Real.cos (15.4909 * π / 180) < 0.963730 := by
  obtain ⟨hlo, hhi⟩ := ex_y1_bounds
  have habs : |(15.4909 : ℝ) * π / 180| ≤ 1 := by
    rw [abs_le]
    constructor <;> linarith
  have hb := abs_sub_le_iff.mp (Real.cos_bound habs)
  have habs_eq : |(15.4909 : ℝ) * π / 180| = 15.4909 * π / 180 :=
    abs_of_pos (by linarith)
  rw [habs_eq] at hb
  have hsq_lo : (0.2703671 : ℝ) ^ 2 < (15.4909 * π / 180) ^ 2 := by nlinarith
  have hsq_hi : ((15.4909 : ℝ) * π / 180) ^ 2 < 0.2703673 ^ 2 := by nlinarith
  have h4 : ((15.4909 : ℝ) * π / 180) ^ 4 < 0.2703673 ^ 4 := by nlinarith [hsq_lo, hsq_hi]
  constructor <;> nlinarith [hb.1, hb.2, h4, hsq_lo, hsq_hi]

/-- Bounds on the cosine of the dropoff latitude. -/
theorem ex_cos_y2_bounds : (0.964160 : ℝ) < Real.cos (15.2832 * π / 180) ∧
    Real.cos (15.2832 * π / 180) < 0.964689 := by
  obtain ⟨hlo, hhi⟩ := ex_y2_bounds
  have habs : |(15.2832 : ℝ) * π / 180| ≤ 1 := by
    rw [abs_le]
    constructor <;> linarith
  have hb := abs_sub_le_iff.mp (Real.cos_bound habs)
  have habs_eq : |(15.2832 : ℝ) * π / 180| = 15.2832 * π / 180 :=
    abs_of_pos (by linarith)
  rw [habs_eq] at hb
  have hsq_lo : (0.2667421 : ℝ) ^ 2 < (15.2832 * π / 180) ^ 2 := by nlinarith
  have hsq_hi : ((15.2832 : ℝ) * π / 180) ^ 2 < 0.2667422 ^ 2 := by nlinarith
  have h4 : ((15.2832 : ℝ) * π / 180) ^ 4 < 0.2667422 ^ 4 := by nlinarith [hsq_lo, hsq_hi]
  constructor <;> nlinarith [hb.1, hb.2, h4, hsq_lo, hsq_hi]

/-- The radicand rewritten through the positive half-angles. -/
theorem exampleA_eq : exampleA =
    Real.sin (0.2077 * π / 360) * Real.sin (0.2077 * π / 360) +
      Real.cos (15.4909 * π / 180) * Real.cos (15.2832 * π / 180) *
        Real.sin (0.1407 * π / 360) * Real.sin (0.1407 * π / 360) := by
  have e1 : ((15.2832 : ℝ) - 15.4909) * π / 180 / 2 = -(0.2077 * π / 360) := by
    ring_nf
  have e2 : ((73.9685 : ℝ) - 73.8278) * π / 180 / 2 = 0.1407 * π / 360 := by
    ring_nf
  unfold exampleA
  rw [e1, e2, Real.sin_neg]
  ring

set_option maxHeartbeats 1600000 in
/-- Rational interval bounds on the example's radicand. -/
theorem exampleA_bounds : (0.000004685169 : ℝ) < exampleA ∧
    exampleA < 0.000004686960 := by
  rw [exampleA_eq]
  obtain ⟨hs1lo, hs1hi⟩ := ex_sin_t1_bounds
  obtain ⟨hs2lo, hs2hi⟩ := ex_sin_t2_bounds
  obtain ⟨hc1lo, hc1hi⟩ := ex_cos_y1_bounds
  obtain ⟨hc2lo, hc2hi⟩ := ex_cos_y2_bounds
  have hc1pos : (0 : ℝ) < Real.cos (15.4909 * π / 180) := by linarith
  have hc2pos : (0 : ℝ) < Real.cos (15.2832 * π / 180) := by linarith
  have hs1pos : (0 : ℝ) < Real.sin (0.2077 * π / 360) := by linarith
  have hs2pos : (0 : ℝ) < Real.sin (0.1407 * π / 360) := by linarith
  have hprod_lo : (0.928651 : ℝ) <
      Real.cos (15.4909 * π / 180) * Real.cos (15.2832 * π / 180) := by
    nlinarith [hc1lo, hc2lo, hc1pos, hc2pos]
  have hprod_hi : Real.cos (15.4909 * π / 180) * Real.cos (15.2832 * π / 180) <
      (0.929700 : ℝ) := by
    nlinarith [hc1hi, hc2hi, hc1pos, hc2pos]
  have hT1_lo : (0.000003285192 : ℝ) <
      Real.sin (0.2077 * π / 360) * Real.sin (0.2077 * π / 360) := by
    nlinarith [hs1lo, hs1pos]
  have hT1_hi : Real.sin (0.2077 * π / 360) * Real.sin (0.2077 * π / 360) <
      (0.000003285266 : ℝ) := by
    nlinarith [hs1hi, hs1pos]
  have hT2_lo : (0.000001507541 : ℝ) <
      Real.sin (0.1407 * π / 360) * Real.sin (0.1407 * π / 360) := by
    nlinarith [hs2lo, hs2pos]
  have hT2_hi : Real.sin (0.1407 * π / 360) * Real.sin (0.1407 * π / 360) <
      (0.000001507592 : ℝ) := by
    nlinarith [hs2hi, hs2pos]
  have hppos : (0 : ℝ) < Real.cos (15.4909 * π / 180) * Real.cos (15.2832 * π / 180) :=
    mul_pos hc1pos hc2pos
  have hT2pos : (0 : ℝ) < Real.sin (0.1407 * π / 360) * Real.sin (0.1407 * π / 360) :=
    mul_pos hs2pos hs2pos
  have hterm2_lo : (0.000001399978 : ℝ) <
      Real.cos (15.4909 * π / 180) * Real.cos (15.2832 * π / 180) *
        (Real.sin (0.1407 * π / 360) * Real.sin (0.1407 * π / 360)) := by
    nlinarith [hprod_lo, hT2_lo, hppos, hT2pos]
  have hterm2_hi : Real.cos (15.4909 * π / 180) * Real.cos (15.2832 * π / 180) *
      (Real.sin (0.1407 * π / 360) * Real.sin (0.1407 * π / 360)) < (0.000001401694 : ℝ) := by
    nlinarith [hprod_hi, hT2_hi, hppos, hT2pos]
  constructor <;> nlinarith [hterm2_lo, hterm2_hi, hT1_lo, hT1_hi]

/-- Bounds on the square root of the radicand. -/
theorem ex_sqrtA_bounds : (0.00216449 : ℝ) ≤ Real.sqrt exampleA ∧
    Real.sqrt exampleA < 0.00216496 := by
  obtain ⟨hlo, hhi⟩ := exampleA_bounds
  constructor
  · rw [Real.le_sqrt' (by norm_num)]
    nlinarith
  · rw [Real.sqrt_lt' (by norm_num)]
    nlinarith

/-- Bounds on the square root of one minus the radicand. -/
theorem ex_sqrt1mA_bounds : (0.9999976 : ℝ) < Real.sqrt (1 - exampleA) ∧
    Real.sqrt (1 - exampleA) < 0.9999977 := by
  obtain ⟨hlo, hhi⟩ := exampleA_bounds
  constructor
  · rw [Real.lt_sqrt (by norm_num)]
    nlinarith
  · rw [Real.sqrt_lt' (by norm_num)]
    nlinarith

/-- Bounds on the quotient fed to the arctangent. -/
theorem ex_ratio_bounds :
    (0.00216448 : ℝ) < Real.sqrt exampleA / Real.sqrt (1 - exampleA) ∧
    Real.sqrt exampleA / Real.sqrt (1 - exampleA) < 0.00216497 := by
  obtain ⟨halo, hahi⟩ := ex_sqrtA_bounds
  obtain ⟨hblo, hbhi⟩ := ex_sqrt1mA_bounds
  have hbpos : (0 : ℝ) < Real.sqrt (1 - exampleA) := by linarith
  constructor
  · rw [lt_div_iff₀ hbpos]
    nlinarith
  · rw [div_lt_iff₀ hbpos]
    nlinarith

/-- Bounds on the arctangent of that quotient. -/
theorem ex_theta_bounds :
    (0.00216442 : ℝ) < arctan (Real.sqrt exampleA / Real.sqrt (1 - exampleA)) ∧
    arctan (Real.sqrt exampleA / Real.sqrt (1 - exampleA)) < 0.00216497 := by
  obtain ⟨htlo, hthi⟩ := ex_ratio_bounds
  constructor
  · have hmono := Real.arctan_strictMono htlo
    have hlow := arctan_ge_sub (show (0 : ℝ) ≤ 0.00216448 by norm_num)
    nlinarith [hmono, hlow]
  · have h := arctan_le_self_of_nonneg
      (show (0 : ℝ) ≤ Real.sqrt exampleA / Real.sqrt (1 - exampleA) by positivity)
    linarith

/-- The example distance lies strictly between 27.5 and 27.6 km. -/
theorem exampleDistance_bounds : (27.5 : ℝ) < exampleDistance ∧ exampleDistance < 27.6 := by
  obtain ⟨hblo, hbhi⟩ := ex_sqrt1mA_bounds
  have hbpos : (0 : ℝ) < Real.sqrt (1 - exampleA) := by linarith
  rw [exampleDistance_def]
  unfold atan2
  rw [if_pos hbpos]
  obtain ⟨hθlo, hθhi⟩ := ex_theta_bounds
  constructor <;> nlinarith [hθlo, hθhi]

/-- The example price is exactly 135: distance tier 25 + 4·d, weight
0.5 kg and timing `within_2h` leave both multipliers off, and the
rounded value of a number in (135.3, 135.4) is 135. -/
theorem examplePrice_eq_135 :
    examplePrice = jsRound (25 + 4 * exampleDistance) ∧ examplePrice = 135 := by
  obtain ⟨hdlo, hdhi⟩ := exampleDistance_bounds
  have hw : effectiveWeight ⟨false, some 0.5⟩ = 0.5 := by
    norm_num [effectiveWeight]
  have hformula : examplePrice = jsRound (25 + 4 * exampleDistance) := by
    have hd1 : ¬ (exampleDistance < 0.5) := by norm_num; linarith
    have hd2 : ¬ (exampleDistance < 1.0) := by norm_num; linarith
    have hd3 : ¬ (exampleDistance < 2.0) := by norm_num; linarith
    have hwm : ¬ ((2 : ℝ) ≤ 0.5 ∧ (0.5 : ℝ) ≤ 5) := by norm_num
    have htm : Timing.within_2h ≠ Timing.asap := by decide
    unfold examplePrice calculatePrice
    rw [hw]
    show calculatePriceNum exampleDistance 0.5 Timing.within_2h = _
    unfold calculatePriceNum
    simp only [if_neg hd1, if_neg hd2, if_neg hd3, if_neg hwm, if_neg htm]
  refine ⟨hformula, ?_⟩
  rw [hformula]
  unfold jsRound
  rw [Int.floor_eq_iff]
  constructor <;> push_cast <;> linarith

/-- Counterexample to C2 as stated: for the worked example's inputs the
program's Haversine distance is below 28 km (not approximately 33 km) and
the computed price is 135, not 157. -/
theorem claim2_counterexample :
    exampleDistance < 28 ∧ examplePrice = 135 ∧ examplePrice ≠ 157 := by
  refine ⟨by linarith [exampleDistance_bounds.2], (examplePrice_eq_135).2, ?_⟩
  rw [(examplePrice_eq_135).2]
  decide

/-- C2 as amended: for pickup (15.4909, 73.8278), dropoff
(15.2832, 73.9685), weight 0.5 kg and timing `within_2h`, the program's
Haversine distance lies in (27.5, 27.6) km and the computed price is
`round(25 + 4·d) = 135`, with neither the weight multiplier nor the
timing multiplier applied. -/
theorem claim2_worked_example :
    (27.5 : ℝ) < exampleDistance ∧ exampleDistance < 27.6 ∧
    examplePrice = jsRound (25 + 4 * exampleDistance) ∧ examplePrice = 135 :=
  ⟨exampleDistance_bounds.1, exampleDistance_bounds.2,
    (examplePrice_eq_135).1, (examplePrice_eq_135).2⟩

end Deliverge
